import Mathlib

/-! # Verification of the drbot query-time RAG pipeline

Shallow embedding of `src/app/rag.py` (class `RAGSystem`).  Python strings are
modelled as `List Char`; the vector store's `similarity_search` and the POST to
the generation endpoint are oracle functions that may fail; the functions
`_classify_question`, `_expand_query`, `retrieve_context`, `_clean_response`,
`generate_response` and `query` are translated clause by clause from the
source.  The retrieval and generation wrappers additionally return the list of
external calls they issued, so that claims about calls not being made are
statable.
-/

namespace DRBot

/-- A stored chunk of source text: the langchain `Document` as `rag.py` uses it
at query time (only `page_content` is ever read there). -/
structure Document where
  page_content : List Char
deriving DecidableEq

/-- Python whitespace as recognised by `str.strip()` and `str.split()`
(the ASCII part, which is all the pipeline's data uses). -/
def pyIsSpace (c : Char) : Bool :=
  c = ' ' || c = '\t' || c = '\n' || c = '\r' || c = '\x0b' || c = '\x0c'

/-- Python `str.lower()` (ASCII case folding, as `query.lower()` uses it). -/
def toLowerL (s : List Char) : List Char := s.map Char.toLower

/-- Python `pat in s`: `pat` occurs as a contiguous substring of `s`. -/
def isSubstring (pat : List Char) : List Char → Bool
  | [] => pat.isPrefixOf []
  | c :: rest => pat.isPrefixOf (c :: rest) || isSubstring pat rest

/-- Python `str.strip()`: drop leading and trailing whitespace. -/
def stripL (s : List Char) : List Char :=
  ((s.dropWhile pyIsSpace).reverse.dropWhile pyIsSpace).reverse

/-- Python `str.rstrip(cs)`: drop trailing characters drawn from `cs`. -/
def rstripOn (cs : List Char) (s : List Char) : List Char :=
  (s.reverse.dropWhile (fun c => cs.contains c)).reverse

/-- Python `str.split('\n')` as `_clean_response` uses it: the empty string
splits to one empty line, and every newline separates two lines. -/
def splitLines : List Char → List (List Char)
  | [] => [[]]
  | c :: rest =>
    if c = '\n' then [] :: splitLines rest
    else
      match splitLines rest with
      | [] => [[c]]
      | l :: ls => (c :: l) :: ls

/-- Python `sep.join(xs)`. -/
def joinWith (sep : List Char) : List (List Char) → List Char
  | [] => []
  | [x] => x
  | x :: xs => x ++ sep ++ joinWith sep xs

/-- Worker for Python `str.split()` with no argument (split on whitespace
runs, no empty words); `cur` holds the current word reversed. -/
def splitWordsAux : List Char → List Char → List (List Char)
  | cur, [] => if cur.isEmpty then [] else [cur.reverse]
  | cur, c :: rest =>
    if pyIsSpace c then
      if cur.isEmpty then splitWordsAux [] rest
      else cur.reverse :: splitWordsAux [] rest
    else splitWordsAux (c :: cur) rest

/-- Python `str.split()` with no argument. -/
def splitWords (s : List Char) : List (List Char) := splitWordsAux [] s

/-- Worker for Python `str.replace(pat, rep)` (replace every occurrence, left
to right, scanning past each replacement).  Indexed by fuel so that the
definition is structural; each step consumes at least one character of `s`
when `pat` is nonempty, so `s.length` fuel always suffices. -/
def replaceAllAux (pat rep : List Char) : Nat → List Char → List Char
  | 0, s => s
  | _ + 1, [] => []
  | fuel + 1, c :: rest =>
    if pat.isPrefixOf (c :: rest) then
      rep ++ replaceAllAux pat rep fuel ((c :: rest).drop pat.length)
    else
      c :: replaceAllAux pat rep fuel rest

/-- Python `s.replace(pat, rep)`.  The pipeline only ever replaces nonempty
literal patterns, so the empty-pattern case (where Python would interleave
`rep` between all characters) is mapped to the identity. -/
def replaceAll (pat rep s : List Char) : List Char :=
  if pat.isEmpty then s else replaceAllAux pat rep s.length s

/-! ## The keyword tables of `_classify_question` (rag.py lines 162-220) -/

def origin_phrases : List (List Char) :=
  ["where did", "where was", "where came", "come from", "came from",
   "where originate", "where start", "where begin", "where founded",
   "where established", "where created", "where formed"].map String.toList

def when_founding_phrases : List (List Char) :=
  ["when was", "when did", "when started", "when began",
   "when founded", "when established", "when created", "when formed"].map String.toList

def history_keywords : List (List Char) :=
  ["history", "historical", "founded", "founding", "origins", "origin",
   "established", "early", "past", "former", "began", "started",
   "jefferson", "madison", "monroe", "1792", "1800", "1824", "1820s",
   "antebellum", "federalist", "era", "period", "century", "decade",
   "original party", "old party", "early party"].map String.toList

def platform_keywords : List (List Char) :=
  ["platform", "policy", "policies", "position", "positions", "stance",
   "stance on", "view on", "views on", "support", "oppose", "advocate",
   "believe", "current", "today", "modern", "now", "present", "contemporary",
   "current party", "modern party", "today's party"].map String.toList

def revival_keywords : List (List Char) :=
  ["revived", "revival", "revive", "bringing back", "restart", "restarted",
   "reestablish", "reestablishing", "reformed", "reform"].map String.toList

def comparative_keywords : List (List Char) :=
  ["differ", "difference", "differences", "compare", "comparison",
   "versus", "vs", "vs.", "contrast", "how has", "how did",
   "changed", "change", "evolved", "evolution", "then vs", "then versus",
   "now vs", "now versus", "historical vs", "historical versus",
   "modern vs", "modern versus", "old vs", "old versus"].map String.toList

/-- The inline modern-marker list of the co-occurrence rule (rag.py line 244). -/
def modern_words : List (List Char) :=
  ["modern", "current", "now", "today", "present"].map String.toList

/-! ## `_classify_question` (rag.py lines 152-254), one named condition per
rule, evaluated in the source's order with early return -/

def originHit (ql : List Char) : Bool :=
  origin_phrases.any fun p => isSubstring p ql

def whenFoundingHit (ql : List Char) : Bool :=
  when_founding_phrases.any fun p => isSubstring p ql

def nowWhenWhereHit (ql : List Char) : Bool :=
  isSubstring ("now when".toList) ql ||
    (isSubstring ("when".toList) ql && isSubstring ("where".toList) ql)

def whereStandaloneHit (ql : List Char) : Bool :=
  (stripL ql == "where".toList || ("where".toList).isPrefixOf ql) &&
    (isSubstring ("party".toList) ql || decide ((splitWords ql).length ≤ 3))

def revivalHit (ql : List Char) : Bool :=
  revival_keywords.any fun kw => isSubstring kw ql

def comparativeHit (ql : List Char) : Bool :=
  comparative_keywords.any fun kw => isSubstring kw ql

def history_score (ql : List Char) : Nat :=
  (history_keywords.filter fun kw => isSubstring kw ql).length

def platform_score (ql : List Char) : Nat :=
  (platform_keywords.filter fun kw => isSubstring kw ql).length

def modernMention (ql : List Char) : Bool :=
  modern_words.any fun w => isSubstring w ql

def _classify_question (query : List Char) : List Char :=
  let query_lower := toLowerL query
  if originHit query_lower then "history".toList
  else if whenFoundingHit query_lower then "history".toList
  else if nowWhenWhereHit query_lower then "history".toList
  else if whereStandaloneHit query_lower then "history".toList
  else if revivalHit query_lower then "both".toList
  else if comparativeHit query_lower then "both".toList
  else if decide (0 < history_score query_lower) && modernMention query_lower then
    "both".toList
  else if decide (0 < history_score query_lower) &&
      decide (platform_score query_lower ≤ history_score query_lower) then
    "history".toList
  else "platform".toList

/-! ## `_expand_query` (rag.py lines 256-285) -/

/-- The negative-term to positive-completion table (a dict in the source;
Python dicts iterate in insertion order). -/
def synonym_map : List (List Char × List (List Char)) :=
  [("lower".toList, ["wage", "minimum wage", "raise", "increase"].map String.toList),
   ("decrease".toList, ["wage", "minimum wage", "raise", "increase"].map String.toList),
   ("reduce".toList, ["wage", "minimum wage", "raise", "increase"].map String.toList),
   ("cut".toList, ["wage", "minimum wage", "raise", "increase"].map String.toList)]

def _expand_query (query : List Char) : List Char :=
  let query_lower := toLowerL query
  let expanded_terms :=
    synonym_map.foldl
      (fun acc entry =>
        if isSubstring entry.1 query_lower then
          entry.2.foldl
            (fun acc2 term =>
              if isSubstring term query_lower then
                acc2 ++ [("raise ".toList ++ term), ("increase ".toList ++ term),
                  ("support ".toList ++ term)]
              else acc2)
            acc
        else acc)
      [query]
  joinWith (" ".toList) expanded_terms

/-! ## `_clean_response` (rag.py lines 373-410) -/

/-- The meta-commentary patterns whose short lines are dropped. -/
def skip_patterns : List (List Char) :=
  ["however, the passage does not", "leaving this answer as inferred",
   "inferred from the context", "the passage does not explicitly"].map String.toList

def _clean_response (response : List Char) : List Char :=
  let r1 := replaceAll ("**Answer:**".toList) [] response
  let r2 := replaceAll ("**Answer**:".toList) [] r1
  let r3 := replaceAll ("Answer:".toList) [] r2
  let r4 := replaceAll ("Answer :".toList) [] r3
  let r5 := replaceAll ("**".toList) [] r4
  let lines := splitLines r5
  let cleaned_lines := lines.filter fun line =>
    let line_lower := stripL (toLowerL line)
    let is_meta := skip_patterns.any fun p => isSubstring p line_lower
    !(is_meta && decide ((stripL line).length < 150))
  let rejoined := stripL (joinWith ("\n".toList) cleaned_lines)
  rstripOn (". ".toList) rejoined

/-! ## `generate_response` (rag.py lines 412-481) -/

/-- Outcome of the one POST to the generation endpoint, as `generate_response`
observes it: HTTP 200 with an optional `response` JSON field, a non-200
status, or a raised exception carrying its message. -/
inductive GenResp where
  | ok (body : Option (List Char))
  | status (code : Nat)
  | exn (msg : List Char)

/-- The generation endpoint, abstracted over the prompt it is sent. -/
def GenFun := List Char → GenResp

/-- `settings.party_name` default from `config.py`. -/
def party_name : List Char := "Democratic Republicans".toList

/-- The extra sentence appended to the history prompt for location or
location-and-time questions (rag.py lines 419-427). -/
def location_instruction (query_lower : List Char) : List Char :=
  let is_location_question :=
    (["where", "location", "place", "city", "state", "region"].map String.toList).any
      fun w => isSubstring w query_lower
  let is_time_question :=
    (["when", "date", "year", "time"].map String.toList).any
      fun w => isSubstring w query_lower
  if is_time_question && is_location_question then
    (" If the question asks for both 'when' and 'where', provide both the date/time and the geographical location.").toList
  else if is_location_question then
    (" If the question asks 'where', provide the geographical location (city, state, or region), not just dates.").toList
  else []

def history_prompt (query : List Char) (context_text : List Char) : List Char :=
  ("Answer this question about the historical Democratic-Republican Party (1792-1824) using the information below.\n\n").toList
    ++ context_text
    ++ ("\n\nQuestion: ").toList ++ query
    ++ ("\n\nProvide a clear, direct answer based on the information above.").toList
    ++ location_instruction (toLowerL query)
    ++ (" Do not include formatting markers, labels, or meta-commentary. Just answer the question.").toList

def both_prompt (query : List Char) (context_text : List Char) : List Char :=
  ("The ").toList ++ party_name
    ++ (" is a modern revival of the historical Democratic-Republican Party (1792-1824). \nCompare the historical party and the modern revived party using the information below.\n\n").toList
    ++ context_text
    ++ ("\n\nQuestion: ").toList ++ query
    ++ ("\n\nProvide a clear comparison between the historical Democratic-Republican Party (1792-1824) and the modern ").toList
    ++ party_name
    ++ (" party. \nIf the question asks about what changed since the party was revived, compare the historical positions with the modern platform.\nDo not include formatting markers or meta-commentary. Just answer the question.").toList

def platform_prompt (query : List Char) (context_text : List Char) : List Char :=
  ("Answer this question about the ").toList ++ party_name
    ++ ("'s platform using the information below.\n\n").toList
    ++ context_text
    ++ ("\n\nQuestion: ").toList ++ query
    ++ ("\n\nProvide a clear, direct answer. Do not include formatting markers, labels like \"Answer:\", or meta-commentary. Just answer the question naturally.").toList

/-- The fixed refusal returned by the platform branch when no usable context
was retrieved (rag.py line 450). -/
def no_context_refusal : List Char :=
  ("I apologize, but I couldn't find relevant information in the party's platform documents to answer your question. Please try rephrasing your question or ask about a different topic.").toList

/-- The default used when the 200 response carries no `response` field. -/
def default_generation_apology : List Char :=
  ("I apologize, but I couldn't generate a response.").toList

def status_error_message (code : Nat) : List Char :=
  ("Error: Could not generate response (status ").toList
    ++ (toString code).toList ++ (")").toList

def exception_error_message (msg : List Char) : List Char :=
  ("Error: ").toList ++ msg

/-- The `try` block around the POST (rag.py lines 461-481): clean the 200
response, otherwise produce the status or exception error string. -/
def call_generation (gen : GenFun) (prompt : List Char) : List Char × List (List Char) :=
  match gen prompt with
  | .ok body => (_clean_response (body.getD default_generation_apology), [prompt])
  | .status code => (status_error_message code, [prompt])
  | .exn msg => (exception_error_message msg, [prompt])

/-- `context_text = "\n\n".join(context) if context else ""` (rag.py line 415). -/
def joined_context (context : List (List Char)) : List Char :=
  if context.isEmpty then [] else joinWith ("\n\n".toList) context

/-- `RAGSystem.generate_response`, instrumented: besides the returned answer
it reports the prompts actually POSTed to the generation endpoint (the list is
empty exactly when no generation call was made). -/
def generate_response (gen : GenFun) (query : List Char) (context : List (List Char))
    (doc_type : List Char) : List Char × List (List Char) :=
  let context_text := joined_context context
  if doc_type = "history".toList then
    call_generation gen (history_prompt query context_text)
  else if doc_type = "both".toList then
    call_generation gen (both_prompt query context_text)
  else
    if context_text.isEmpty || decide ((stripL context_text).length < 50) then
      (no_context_refusal, [])
    else
      call_generation gen (platform_prompt query context_text)

/-! ## `retrieve_context` (rag.py lines 287-371) -/

/-- One similarity-search invocation as issued by `retrieve_context`. -/
structure SearchCall where
  query : List Char
  k : Nat
  filter : Option (List Char)
deriving DecidableEq

/-- The vector store's `similarity_search(query, k, filter)`, abstracted: it
returns documents or raises. -/
def SearchFun := List Char → Nat → Option (List Char) → Except Unit (List Document)

def prependCalls (calls : List SearchCall)
    (r : (List (List Char) × List Char) × List SearchCall) :
    (List (List Char) × List Char) × List SearchCall :=
  (r.1, calls ++ r.2)

/-- The `except` handler of `retrieve_context` (rag.py lines 364-371): one
unfiltered retry with the original question, then the empty default result. -/
def fallback_search (search : SearchFun) (query : List Char) (top_k : Nat) :
    (List (List Char) × List Char) × List SearchCall :=
  match search query top_k none with
  | .ok results =>
    ((results.map fun d => d.page_content, "platform".toList), [⟨query, top_k, none⟩])
  | .error _ => (([], "platform".toList), [⟨query, top_k, none⟩])

/-- The merge-and-deduplicate loop of the fewer-than-two branch (rag.py lines
344-352): keep first occurrences by trimmed content, drop content of length
at most 50. -/
def dedupAux50 : List (List Char) → List Document → List Document
  | _, [] => []
  | seen, r :: rest =>
    let content := stripL r.page_content
    if content ∉ seen ∧ 50 < content.length then
      r :: dedupAux50 (content :: seen) rest
    else dedupAux50 seen rest

/-- The final dedup loop (rag.py lines 354-361): keep first occurrences by
trimmed content, collecting the untrimmed `page_content`. -/
def dedupAuxFinal : List (List Char) → List Document → List (List Char)
  | _, [] => []
  | seen, r :: rest =>
    let content := stripL r.page_content
    if content ∉ seen then
      r.page_content :: dedupAuxFinal (content :: seen) rest
    else dedupAuxFinal seen rest

/-- Tail of the single-scope branch of `retrieve_context` (rag.py lines
337-363): the fewer-than-two merge pass with the original query, then the
final dedup. -/
def single_finish (search : SearchFun) (query : List Char) (top_k : Nat)
    (doc_type : List Char) (results : List Document) (calls : List SearchCall) :
    (List (List Char) × List Char) × List SearchCall :=
  if results.length < 2 then
    match search query top_k (some doc_type) with
    | .error _ =>
      prependCalls (calls ++ [⟨query, top_k, some doc_type⟩])
        (fallback_search search query top_k)
    | .ok original_results =>
      let deduplicated := dedupAux50 [] (results ++ original_results)
      ((dedupAuxFinal [] deduplicated, doc_type), calls ++ [⟨query, top_k, some doc_type⟩])
  else
    ((dedupAuxFinal [] results, doc_type), calls)

/-- `RAGSystem.retrieve_context`, instrumented with the list of
similarity-search calls issued, in order.  `vs = none` models an
uninitialized `vectorstore`; any `.error` from a call inside the `try` block
routes to `fallback_search`, the translated `except` handler. -/
def retrieve_context (vs : Option SearchFun) (query : List Char) (top_k : Nat) :
    (List (List Char) × List Char) × List SearchCall :=
  match vs with
  | none => (([], "platform".toList), [])
  | some search =>
    let doc_type := _classify_question query
    let expanded_query := _expand_query query
    if doc_type = "both".toList then
      match search expanded_query top_k (some ("history".toList)) with
      | .error _ =>
        prependCalls [⟨expanded_query, top_k, some ("history".toList)⟩]
          (fallback_search search query top_k)
      | .ok history_results =>
        match search expanded_query top_k (some ("platform".toList)) with
        | .error _ =>
          prependCalls
            [⟨expanded_query, top_k, some ("history".toList)⟩,
             ⟨expanded_query, top_k, some ("platform".toList)⟩]
            (fallback_search search query top_k)
        | .ok platform_results =>
          let all_results := (history_results ++ platform_results).take (top_k * 2)
          ((all_results.map fun d => d.page_content, "both".toList),
            [⟨expanded_query, top_k, some ("history".toList)⟩,
             ⟨expanded_query, top_k, some ("platform".toList)⟩])
    else
      match search expanded_query top_k (some doc_type) with
      | .error _ =>
        prependCalls [⟨expanded_query, top_k, some doc_type⟩]
          (fallback_search search query top_k)
      | .ok first_results =>
        if first_results.isEmpty then
          match search expanded_query top_k none with
          | .error _ =>
            prependCalls
              [⟨expanded_query, top_k, some doc_type⟩, ⟨expanded_query, top_k, none⟩]
              (fallback_search search query top_k)
          | .ok retry_results =>
            single_finish search query top_k doc_type retry_results
              [⟨expanded_query, top_k, some doc_type⟩, ⟨expanded_query, top_k, none⟩]
        else
          single_finish search query top_k doc_type first_results
            [⟨expanded_query, top_k, some doc_type⟩]

/-- `RAGSystem.query` (rag.py lines 483-510): retrieval with the default
`top_k = 5`, then generation; the answer together with both call logs. -/
def query (vs : Option SearchFun) (gen : GenFun) (user_question : List Char) :
    List Char × List SearchCall × List (List Char) :=
  let r := retrieve_context vs user_question 5
  let g := generate_response gen user_question r.1.1 r.1.2
  (g.1, r.2, g.2)

/-! ## Helper lemmas about the string primitives -/

theorem isSubstring_iff {pat s : List Char} : isSubstring pat s = true ↔ pat <:+: s := by
  induction s with
  | nil =>
    simp [isSubstring, List.isPrefixOf_iff_prefix, List.infix_nil, List.prefix_nil]
  | cons c rest ih =>
    simp [isSubstring, List.isPrefixOf_iff_prefix, ih, List.infix_cons_iff]

theorem isSubstring_mono {p q s : List Char} (hpq : p <:+: q)
    (h : isSubstring q s = true) : isSubstring p s = true :=
  isSubstring_iff.mpr (hpq.trans (isSubstring_iff.mp h))

theorem isSubstring_false_mono {p q s : List Char} (hpq : p <:+: q)
    (h : isSubstring p s = false) : isSubstring q s = false := by
  cases hq : isSubstring q s
  · rfl
  · exact absurd (isSubstring_mono hpq hq) (by simp [h])

theorem replaceAllAux_eq_self {pat rep : List Char} :
    ∀ (fuel : Nat) (s : List Char), isSubstring pat s = false →
      replaceAllAux pat rep fuel s = s
  | 0, _, _ => rfl
  | _ + 1, [], _ => rfl
  | fuel + 1, c :: rest, h => by
    have hp : pat.isPrefixOf (c :: rest) = false := by
      cases hpp : pat.isPrefixOf (c :: rest)
      · rfl
      · simp [isSubstring, hpp] at h
    have ht : isSubstring pat rest = false := by
      cases hts : isSubstring pat rest
      · rfl
      · simp [isSubstring, hts] at h
    simp [replaceAllAux, hp, replaceAllAux_eq_self fuel rest ht]

theorem replaceAll_eq_self {pat rep s : List Char}
    (h : isSubstring pat s = false) : replaceAll pat rep s = s := by
  unfold replaceAll
  split
  · rfl
  · exact replaceAllAux_eq_self _ _ h

theorem splitLines_ne_nil (s : List Char) : splitLines s ≠ [] := by
  cases s with
  | nil => simp [splitLines]
  | cons c rest =>
    simp only [splitLines]
    split
    · simp
    · split <;> simp

theorem joinWith_splitLines (s : List Char) :
    joinWith ("\n".toList) (splitLines s) = s := by
  have hsep : ("\n".toList : List Char) = ['\n'] := rfl
  rw [hsep]
  induction s with
  | nil => rfl
  | cons c rest ih =>
    by_cases hc : c = '\n'
    · subst hc
      simp only [splitLines, if_pos rfl]
      obtain ⟨l, ls, heq⟩ := List.exists_cons_of_ne_nil (splitLines_ne_nil rest)
      rw [heq] at ih ⊢
      simpa [joinWith] using ih
    · simp only [splitLines, if_neg hc]
      obtain ⟨l, ls, heq⟩ := List.exists_cons_of_ne_nil (splitLines_ne_nil rest)
      rw [heq] at ih ⊢
      cases ls with
      | nil => simpa [joinWith] using ih
      | cons l2 ls2 => simpa [joinWith] using ih

theorem splitLines_head_prefix :
    ∀ (s l : List Char) (ls : List (List Char)), splitLines s = l :: ls → l <+: s := by
  intro s
  induction s with
  | nil =>
    intro l ls h
    simp only [splitLines] at h
    injection h with h1 _
    subst h1
    exact List.nil_prefix
  | cons c rest ih =>
    intro l ls h
    simp only [splitLines] at h
    split at h
    · injection h with h1 _
      subst h1
      exact List.nil_prefix
    · split at h
      · next heq => exact absurd heq (splitLines_ne_nil rest)
      · next l0 ls0 heq =>
        injection h with h1 _
        subst h1
        obtain ⟨t, ht⟩ := ih l0 ls0 heq
        exact ⟨t, by rw [List.cons_append, ht]⟩

theorem splitLines_mem_isPart (s : List Char) : ∀ l ∈ splitLines s, l <:+: s := by
  induction s with
  | nil =>
    intro l hl
    simp [splitLines] at hl
    simp [hl]
  | cons c rest ih =>
    intro l hl
    simp only [splitLines] at hl
    split at hl
    · rcases List.mem_cons.mp hl with rfl | h
      · exact ⟨[], c :: rest, rfl⟩
      · exact List.infix_cons (ih l h)
    · split at hl
      · next heq => exact absurd heq (splitLines_ne_nil rest)
      · next l0 ls0 heq =>
        rcases List.mem_cons.mp hl with rfl | h
        · have hpre : (c :: l0) <+: (c :: rest) := by
            obtain ⟨t, ht⟩ := splitLines_head_prefix rest l0 ls0 heq
            exact ⟨t, by rw [List.cons_append, ht]⟩
          exact hpre.isInfix
        · have hmem : l ∈ splitLines rest := by rw [heq]; exact List.mem_cons_of_mem _ h
          exact List.infix_cons (ih l hmem)

theorem stripL_isPart (s : List Char) : stripL s <:+: s := by
  have h1 : List.dropWhile pyIsSpace s <:+ s := List.dropWhile_suffix _
  have h2 : List.dropWhile pyIsSpace (List.dropWhile pyIsSpace s).reverse <:+
      (List.dropWhile pyIsSpace s).reverse := List.dropWhile_suffix _
  have h3 := List.reverse_prefix.mpr h2
  rw [List.reverse_reverse] at h3
  exact h3.isInfix.trans h1.isInfix

/-! ## Helper lemmas about the dedup loops and the retrieval branches -/

theorem dedupAuxFinal_strip_not_mem :
    ∀ (rs : List Document) (seen : List (List Char)) (x : List Char),
      x ∈ dedupAuxFinal seen rs → stripL x ∉ seen := by
  intro rs
  induction rs with
  | nil => intro seen x hx; simp [dedupAuxFinal] at hx
  | cons r rest ih =>
    intro seen x hx
    simp only [dedupAuxFinal] at hx
    split at hx
    · next hc =>
      rcases List.mem_cons.mp hx with rfl | h
      · exact hc
      · have := ih (stripL r.page_content :: seen) x h
        exact fun hmem => this (List.mem_cons_of_mem _ hmem)
    · exact ih seen x hx

theorem dedupAuxFinal_pairwise :
    ∀ (rs : List Document) (seen : List (List Char)),
      (dedupAuxFinal seen rs).Pairwise (fun a b => stripL a ≠ stripL b) := by
  intro rs
  induction rs with
  | nil => intro seen; simp [dedupAuxFinal]
  | cons r rest ih =>
    intro seen
    simp only [dedupAuxFinal]
    split
    · refine List.Pairwise.cons ?_ (ih _)
      intro y hy heq
      have hnot := dedupAuxFinal_strip_not_mem rest (stripL r.page_content :: seen) y hy
      exact hnot (by rw [← heq]; exact List.mem_cons_self _ _)
    · exact ih seen

theorem dedupAuxFinal_length :
    ∀ (rs : List Document) (seen : List (List Char)),
      (dedupAuxFinal seen rs).length ≤ rs.length := by
  intro rs
  induction rs with
  | nil => intro seen; simp [dedupAuxFinal]
  | cons r rest ih =>
    intro seen
    simp only [dedupAuxFinal, List.length_cons]
    split
    · simpa using Nat.succ_le_succ (ih _)
    · exact (ih seen).trans (Nat.le_succ _)

theorem dedupAux50_length :
    ∀ (rs : List Document) (seen : List (List Char)),
      (dedupAux50 seen rs).length ≤ rs.length := by
  intro rs
  induction rs with
  | nil => intro seen; simp [dedupAux50]
  | cons r rest ih =>
    intro seen
    simp only [dedupAux50, List.length_cons]
    split
    · simpa using Nat.succ_le_succ (ih _)
    · exact (ih seen).trans (Nat.le_succ _)

theorem prependCalls_fst (calls : List SearchCall)
    (r : (List (List Char) × List Char) × List SearchCall) :
    (prependCalls calls r).1 = r.1 := rfl

theorem fallback_search_label (search : SearchFun) (q : List Char) (k : Nat) :
    (fallback_search search q k).1.2 = "platform".toList := by
  unfold fallback_search
  split <;> rfl

theorem fallback_search_length (search : SearchFun) (q : List Char) (k : Nat)
    (hk : ∀ a b c rs, search a b c = Except.ok rs → rs.length ≤ b) :
    (fallback_search search q k).1.1.length ≤ k := by
  unfold fallback_search
  split
  · next rs heq => simpa using hk q k none rs heq
  · simp

theorem single_finish_label (search : SearchFun) (q : List Char) (top_k : Nat)
    (doc_type : List Char) (results : List Document) (calls : List SearchCall) :
    (single_finish search q top_k doc_type results calls).1.2 = doc_type ∨
    (single_finish search q top_k doc_type results calls).1.2 = "platform".toList := by
  unfold single_finish
  split
  · split
    · right
      rw [prependCalls_fst, fallback_search_label]
    · left; rfl
  · left; rfl

theorem single_finish_length (search : SearchFun) (q : List Char) (top_k : Nat)
    (doc_type : List Char) (results : List Document) (calls : List SearchCall)
    (hk : ∀ a b c rs, search a b c = Except.ok rs → rs.length ≤ b)
    (hres : results.length ≤ top_k) :
    (single_finish search q top_k doc_type results calls).1.1.length ≤ top_k + 1 := by
  unfold single_finish
  split
  · next hlt =>
    split
    · rw [prependCalls_fst]
      exact (fallback_search_length search q top_k hk).trans (Nat.le_succ _)
    · next orig heq =>
      have h1 : (dedupAuxFinal [] (dedupAux50 [] (results ++ orig))).length ≤
          (results ++ orig).length :=
        (dedupAuxFinal_length _ _).trans (dedupAux50_length _ _)
      have h2 : (results ++ orig).length ≤ 1 + top_k := by
        rw [List.length_append]
        exact Nat.add_le_add (Nat.lt_succ_iff.mp hlt) (hk q top_k (some doc_type) orig heq)
      simpa using h1.trans (h2.trans_eq (Nat.add_comm 1 top_k))
  · exact ((dedupAuxFinal_length results []).trans hres).trans (Nat.le_succ _)

theorem single_finish_pairwise (search : SearchFun) (q : List Char) (top_k : Nat)
    (doc_type : List Char) (results : List Document) (calls : List SearchCall)
    (hok : ∀ a b c, search a b c ≠ Except.error ()) :
    ((single_finish search q top_k doc_type results calls).1.1).Pairwise
      (fun a b => stripL a ≠ stripL b) := by
  unfold single_finish
  split
  · split
    · next e heq =>
      cases e
      exact absurd heq (hok q top_k (some doc_type))
    · exact dedupAuxFinal_pairwise _ _
  · exact dedupAuxFinal_pairwise _ _

theorem isSubstring_of_isPart {p s t : List Char} (hst : s <:+: t)
    (h : isSubstring p s = true) : isSubstring p t = true :=
  isSubstring_iff.mpr ((isSubstring_iff.mp h).trans hst)

theorem isSubstring_false_of_isPart {p s t : List Char} (hst : s <:+: t)
    (h : isSubstring p t = false) : isSubstring p s = false := by
  cases hs : isSubstring p s
  · rfl
  · exact absurd (isSubstring_of_isPart hst hs) (by simp [h])

/-! ## Claim theorems -/

/-- C5: a question whose lower-cased text contains one of the priority-override
origin phrases is always classified "history": the origin rule is the first
rule of `_classify_question`, so the platform keyword score never matters. -/
theorem classify_origin_phrase_forces_history (q : List Char)
    (h : originHit (toLowerL q) = true) :
    _classify_question q = "history".toList := by
  simp [_classify_question, h]

/-- C5 witness: "Where was the party founded?" contains the origin phrase
"where was" and is classified "history". -/
theorem classify_origin_phrase_forces_history_witness :
    _classify_question ("Where was the party founded?".toList) = "history".toList :=
  classify_origin_phrase_forces_history ("Where was the party founded?".toList) (by decide)

/-- C9: a question whose lower-cased text contains both "when" and "where" is
classified "history".  The when-and-where rule and the two rules before it
(origin phrases, when-founding phrases) all return "history", and they all
precede the comparative, revival and co-occurrence rules, so those never see
such a question. -/
theorem classify_when_and_where_history (q : List Char)
    (h1 : isSubstring ("when".toList) (toLowerL q) = true)
    (h2 : isSubstring ("where".toList) (toLowerL q) = true) :
    _classify_question q = "history".toList := by
  have hn : nowWhenWhereHit (toLowerL q) = true := by
    unfold nowWhenWhereHit
    rw [h1, h2]
    simp
  by_cases ho : originHit (toLowerL q) = true
  · simp [_classify_question, ho]
  · by_cases hw : whenFoundingHit (toLowerL q) = true
    · simp [_classify_question, ho, hw]
    · simp [_classify_question, ho, hw, hn]

/-- C9 witness: "when and where was it founded" contains both substrings and
is classified "history". -/
theorem classify_when_and_where_history_witness :
    _classify_question ("when and where was it founded".toList) = "history".toList :=
  classify_when_and_where_history ("when and where was it founded".toList)
    (by decide) (by decide)

/-- C6 counterexample: "where did it differ" contains the comparative keyword
"differ", yet the earlier origin-phrase rule ("where did") classifies it
"history", not "both". -/
theorem classify_comparative_counterexample :
    comparativeHit (toLowerL ("where did it differ".toList)) = true ∧
    _classify_question ("where did it differ".toList) ≠ "both".toList := by
  constructor
  · decide
  · decide

/-- C6 (amended): a comparative or revival keyword forces the combined label
"both" provided none of the four earlier history rules fires (origin phrase,
when-founding phrase, now-when or when-plus-where, standalone where). -/
theorem classify_comparative_revival_both (q : List Char)
    (h1 : originHit (toLowerL q) = false)
    (h2 : whenFoundingHit (toLowerL q) = false)
    (h3 : nowWhenWhereHit (toLowerL q) = false)
    (h4 : whereStandaloneHit (toLowerL q) = false)
    (h5 : (revivalHit (toLowerL q) || comparativeHit (toLowerL q)) = true) :
    _classify_question q = "both".toList := by
  cases hr : revivalHit (toLowerL q)
  · have hc : comparativeHit (toLowerL q) = true := by simpa [hr] using h5
    simp [_classify_question, h1, h2, h3, h4, hr, hc]
  · simp [_classify_question, h1, h2, h3, h4, hr]

/-- C6 witness: "compare them" triggers no history rule and contains the
comparative keyword "compare", so it is classified "both". -/
theorem classify_comparative_revival_both_witness :
    _classify_question ("compare them".toList) = "both".toList :=
  classify_comparative_revival_both ("compare them".toList)
    (by decide) (by decide) (by decide) (by decide) (by decide)

/-- C10: with an uninitialized vector store (`vectorstore is None`),
`retrieve_context` returns the empty passage list with the default label
"platform" and issues no similarity-search call at all. -/
theorem retrieve_context_uninitialized (q : List Char) (top_k : Nat) :
    retrieve_context none q top_k = (([], "platform".toList), []) := rfl

/-- Always-failing similarity search, for the C4 witness. -/
def witFailSearch : SearchFun := fun _ _ _ => Except.error ()

/-- C4: when the similarity search raises on every call, `retrieve_context`
still returns: the filtered first call falls into the `except` handler, which
retries exactly once with the original question and no filter, and when that
retry also raises the result is the empty list with the default label
"platform".  No exception escapes. -/
theorem retrieve_context_total_failure (search : SearchFun) (q : List Char) (top_k : Nat)
    (hfail : ∀ a b c, search a b c = Except.error ()) :
    (retrieve_context (some search) q top_k).1 = ([], "platform".toList) ∧
    (retrieve_context (some search) q top_k).2 =
      [⟨_expand_query q, top_k,
        some (if _classify_question q = "both".toList then "history".toList
              else _classify_question q)⟩,
       ⟨q, top_k, none⟩] := by
  by_cases hdt : _classify_question q = "both".toList
  · simp [retrieve_context, fallback_search, prependCalls, hfail, hdt]
  · have hdt' : ¬ _classify_question q = ['b', 'o', 't', 'h'] := hdt
    simp [retrieve_context, fallback_search, prependCalls, hfail, hdt']

/-- C4 witness: the failure ladder evaluated at "hello" with `top_k = 2`. -/
theorem retrieve_context_total_failure_witness :
    (retrieve_context (some witFailSearch) ("hello".toList) 2).1 = ([], "platform".toList) ∧
    (retrieve_context (some witFailSearch) ("hello".toList) 2).2 =
      [⟨_expand_query ("hello".toList), 2,
        some (if _classify_question ("hello".toList) = "both".toList then "history".toList
              else _classify_question ("hello".toList))⟩,
       ⟨("hello".toList), 2, none⟩] :=
  retrieve_context_total_failure witFailSearch ("hello".toList) 2 (fun _ _ _ => rfl)

/-- Generation endpoint whose 200 responses carry no `response` field, for the
C3 witness (it is never actually invoked on the refusal path). -/
def witGenNone : GenFun := fun _ => GenResp.ok none

/-- C3: under the "platform" label, a double-newline-joined context whose
trimmed length is below 50 characters (which covers the empty join) makes
`generate_response` return the fixed refusal with an empty generation-call
log; consequently, when retrieval resolved to "platform" with such a context,
`query` returns the refusal and no generation call is made. -/
theorem generate_response_platform_refusal (gen : GenFun) (q : List Char)
    (context : List (List Char)) (vs : Option SearchFun)
    (hshort : (stripL (joined_context context)).length < 50)
    (hret : (retrieve_context vs q 5).1 = (context, "platform".toList)) :
    generate_response gen q context ("platform".toList) = (no_context_refusal, []) ∧
    (query vs gen q).1 = no_context_refusal ∧ (query vs gen q).2.2 = [] := by
  have hmain : generate_response gen q context ("platform".toList) =
      (no_context_refusal, []) := by
    simp only [generate_response]
    rw [if_neg (by decide), if_neg (by decide), if_pos]
    simp [decide_eq_true hshort]
  have h1 : (retrieve_context vs q 5).1.1 = context := by rw [hret]
  have h2 : (retrieve_context vs q 5).1.2 = "platform".toList := by rw [hret]
  refine ⟨hmain, ?_, ?_⟩ <;> simp only [query, h1, h2, hmain]

/-- C3 witness: with an uninitialized store, retrieval yields the empty
context under "platform" and `query` returns the refusal with no generation
call. -/
theorem generate_response_platform_refusal_witness :
    generate_response witGenNone ("hi".toList) [] ("platform".toList) =
      (no_context_refusal, []) ∧
    (query none witGenNone ("hi".toList)).1 = no_context_refusal ∧
    (query none witGenNone ("hi".toList)).2.2 = [] :=
  generate_response_platform_refusal witGenNone ("hi".toList) [] none
    (by decide) (by decide)

/-- Generation endpoint that always answers 200 with raw text ".", for the C8
counterexample. -/
def cexGenDot : GenFun := fun _ => GenResp.ok (some (".".toList))

/-- C8 counterexample: the endpoint responds with success status and the
nonempty raw text ".", yet the returned Answer is the empty string (the
cleaner's trailing `rstrip('. ')` removes everything). -/
theorem generate_success_empty_answer_counterexample :
    (generate_response cexGenDot ("x".toList) [] ("history".toList)).1 = [] ∧
    (".".toList : List Char) ≠ [] := by
  constructor
  · decide
  · decide

/-- Generation endpoint with a fixed sentence, for the C8 witness. -/
def witGenSentence : GenFun := fun _ => GenResp.ok (some ("All men are created equal".toList))

/-- C8 (amended): whenever the generation endpoint responds with a success
status carrying raw text, `generate_response` returns exactly the cleaned raw
text (one prompt was posted); that cleaned text is not guaranteed nonempty. -/
theorem generate_response_success_cleaned (gen : GenFun) (q : List Char)
    (context : List (List Char)) (doc_type : List Char) (raw : List Char)
    (hgen : ∀ p, gen p = GenResp.ok (some raw))
    (hpath : doc_type = "history".toList ∨ doc_type = "both".toList ∨
      (doc_type = "platform".toList ∧
        (joined_context context).isEmpty = false ∧
        50 ≤ (stripL (joined_context context)).length)) :
    (generate_response gen q context doc_type).1 = _clean_response raw ∧
    (generate_response gen q context doc_type).2.length = 1 := by
  rcases hpath with h | h | ⟨h, hne, hlen⟩
  · subst h
    simp only [generate_response, if_pos rfl]
    simp [call_generation, hgen]
  · subst h
    simp only [generate_response]
    rw [if_neg (by decide)]
    simp [call_generation, hgen]
  · subst h
    simp only [generate_response]
    rw [if_neg (by decide), if_neg (by decide), if_neg]
    · simp [call_generation, hgen]
    · simp [hne, Nat.not_lt.mpr hlen]

/-- C8 witness: a history-scope call whose endpoint answers with a sentence
returns that sentence cleaned. -/
theorem generate_response_success_cleaned_witness :
    (generate_response witGenSentence ("q".toList) [] ("history".toList)).1 =
      _clean_response ("All men are created equal".toList) ∧
    (generate_response witGenSentence ("q".toList) [] ("history".toList)).2.length = 1 :=
  generate_response_success_cleaned witGenSentence ("q".toList) [] ("history".toList)
    ("All men are created equal".toList) (fun _ => rfl) (Or.inl rfl)

/-- A long passage about the minimum wage, for the C1 counterexample. -/
def cexDocA : Document :=
  ⟨("The party supports raising the minimum wage to a living standard level.").toList⟩

/-- A second, distinct long passage, for the C1 counterexample. -/
def cexDocB : Document :=
  ⟨("Minimum wage policy: the platform calls for periodic automatic increases.").toList⟩

/-- Similarity search for the C1 counterexample.  It honours the requested
`k` (every reply is truncated with `take k`), answers the expanded query with
one passage and the original query with a different one. -/
def cexSearchC1 : SearchFun := fun q k _f =>
  Except.ok ((if q = _expand_query ("lower wage".toList) then [cexDocA]
    else if q = ("lower wage".toList) then [cexDocB] else []).take k)

/-- C1 counterexample: "lower wage" classifies to the single scope "platform"
and, at `top_k = 1` against a search that returns at most `k` passages per
call, `retrieve_context` returns 2 passages: the fewer-than-two merge pass
adds the original-query results and no truncation to `top_k` follows. -/
theorem retrieve_context_cap_counterexample :
    (retrieve_context (some cexSearchC1) ("lower wage".toList) 1).1.2 = "platform".toList ∧
    ¬ ((retrieve_context (some cexSearchC1) ("lower wage".toList) 1).1.1.length ≤ 1) := by
  constructor
  · decide
  · decide

/-- C1 (amended): with a similarity search that returns at most `k` documents
per call, the passage list of `retrieve_context` has length at most
`top_k * 2` when the resolved label is "both" and at most `top_k + 1` (not
`top_k`: the merge pass can add one passage beyond the cap) otherwise. -/
theorem retrieve_context_length_bound (search : SearchFun) (q : List Char) (top_k : Nat)
    (hk : ∀ a b c rs, search a b c = Except.ok rs → rs.length ≤ b) :
    ((retrieve_context (some search) q top_k).1.1).length ≤
      (if (retrieve_context (some search) q top_k).1.2 = "both".toList then top_k * 2
       else top_k + 1) := by
  simp only [retrieve_context]
  split
  · next hdt =>
    split
    · rw [prependCalls_fst, fallback_search_label, if_neg (by decide)]
      exact (fallback_search_length search q top_k hk).trans (Nat.le_succ _)
    · next hist heq1 =>
      split
      · rw [prependCalls_fst, fallback_search_label, if_neg (by decide)]
        exact (fallback_search_length search q top_k hk).trans (Nat.le_succ _)
      · next plat heq2 =>
        rw [if_pos rfl]
        simp [List.length_take]
  · next hdt =>
    split
    · rw [prependCalls_fst, fallback_search_label, if_neg (by decide)]
      exact (fallback_search_length search q top_k hk).trans (Nat.le_succ _)
    · next first_results heq1 =>
      split
      · split
        · rw [prependCalls_fst, fallback_search_label, if_neg (by decide)]
          exact (fallback_search_length search q top_k hk).trans (Nat.le_succ _)
        · next retry heq2 =>
          rcases single_finish_label search q top_k (_classify_question q) retry
              [⟨_expand_query q, top_k, some (_classify_question q)⟩,
               ⟨_expand_query q, top_k, none⟩] with h | h
          · rw [h, if_neg hdt]
            exact single_finish_length _ _ _ _ _ _ hk (hk _ _ _ _ heq2)
          · rw [h, if_neg (by decide)]
            exact single_finish_length _ _ _ _ _ _ hk (hk _ _ _ _ heq2)
      · rcases single_finish_label search q top_k (_classify_question q) first_results
            [⟨_expand_query q, top_k, some (_classify_question q)⟩] with h | h
        · rw [h, if_neg hdt]
          exact single_finish_length _ _ _ _ _ _ hk (hk _ _ _ _ heq1)
        · rw [h, if_neg (by decide)]
          exact single_finish_length _ _ _ _ _ _ hk (hk _ _ _ _ heq1)

/-- Similarity search that always returns no documents, for the C1 and C2
witnesses. -/
def witSearchEmpty : SearchFun := fun _ _ _ => Except.ok ([] : List Document)

/-- C1 witness: the bound evaluated at "hi" with `top_k = 3` against the
empty-returning search. -/
theorem retrieve_context_length_bound_witness :
    ((retrieve_context (some witSearchEmpty) ("hi".toList) 3).1.1).length ≤
      (if (retrieve_context (some witSearchEmpty) ("hi".toList) 3).1.2 = "both".toList
       then 3 * 2 else 3 + 1) :=
  retrieve_context_length_bound witSearchEmpty ("hi".toList) 3
    (fun a b c rs h => by
      simp only [witSearchEmpty] at h
      cases h
      simp)

/-- A passage far below the 50-character minimum, for the C2 counterexample. -/
def cexDocShort1 : Document := ⟨("Taxes: see appendix.").toList⟩

/-- A second short passage, for the C2 counterexample. -/
def cexDocShort2 : Document := ⟨("Budget: balanced.").toList⟩

/-- Similarity search returning two short passages, for the C2
counterexample. -/
def cexSearchC2 : SearchFun := fun _q k _f =>
  Except.ok ([cexDocShort1, cexDocShort2].take k)

/-- C2 counterexample: a single-scope ("platform") retrieval that finds two
passages on the first filtered search returns them both even though their
trimmed contents are 20 and 17 characters long: the 50-character minimum is
only enforced on the merge-fallback branch, not on this direct path. -/
theorem retrieve_context_minlength_counterexample :
    (retrieve_context (some cexSearchC2) ("hi".toList) 2).1 =
      ([("Taxes: see appendix.").toList, ("Budget: balanced.").toList],
        "platform".toList) ∧
    ¬ (50 < (stripL (("Taxes: see appendix.").toList)).length) := by
  constructor
  · decide
  · decide

/-- C2 (amended): when no similarity-search call raises and the resolved
label is not "both", no two passages returned by `retrieve_context` have
identical trimmed content (the 50-character minimum, however, is not
guaranteed on this path, and the exception-fallback path does not dedup). -/
theorem retrieve_context_dedup_pairwise (search : SearchFun) (q : List Char) (top_k : Nat)
    (hok : ∀ a b c, search a b c ≠ Except.error ())
    (hne : (retrieve_context (some search) q top_k).1.2 ≠ "both".toList) :
    ((retrieve_context (some search) q top_k).1.1).Pairwise
      (fun a b => stripL a ≠ stripL b) := by
  revert hne
  simp only [retrieve_context]
  split
  · next hdt =>
    split
    · next e heq =>
      cases e
      exact absurd heq (hok _ _ _)
    · next hist heq1 =>
      split
      · next e heq =>
        cases e
        exact absurd heq (hok _ _ _)
      · next plat heq2 =>
        intro hne
        exact absurd rfl hne
  · next hdt =>
    split
    · next e heq =>
      cases e
      exact absurd heq (hok _ _ _)
    · next first_results heq1 =>
      split
      · split
        · next e heq =>
          cases e
          exact absurd heq (hok _ _ _)
        · next retry heq2 =>
          exact fun _ => single_finish_pairwise _ _ _ _ _ _ hok
      · exact fun _ => single_finish_pairwise _ _ _ _ _ _ hok

/-- C2 witness: the dedup property evaluated at "hi" with `top_k = 3` against
the empty-returning search. -/
theorem retrieve_context_dedup_pairwise_witness :
    ((retrieve_context (some witSearchEmpty) ("hi".toList) 3).1.1).Pairwise
      (fun a b => stripL a ≠ stripL b) :=
  retrieve_context_dedup_pairwise witSearchEmpty ("hi".toList) 3
    (fun a b c => by simp [witSearchEmpty]) (by decide)

/-- A string the cleaner fixes: no marker or meta-pattern occurrence, no
surrounding whitespace, no trailing period or space. -/
theorem clean_response_fixed (y : List Char)
    (h1 : isSubstring ("**".toList) y = false)
    (h2 : isSubstring ("Answer:".toList) y = false)
    (h3 : isSubstring ("Answer :".toList) y = false)
    (h4 : ∀ p ∈ skip_patterns, isSubstring p (toLowerL y) = false)
    (h5 : stripL y = y)
    (h6 : rstripOn (". ".toList) y = y) :
    _clean_response y = y := by
  have e1 : replaceAll ("**Answer:**".toList) [] y = y :=
    replaceAll_eq_self (isSubstring_false_mono (isSubstring_iff.mp (by decide)) h1)
  have e2 : replaceAll ("**Answer**:".toList) [] y = y :=
    replaceAll_eq_self (isSubstring_false_mono (isSubstring_iff.mp (by decide)) h1)
  have e3 : replaceAll ("Answer:".toList) [] y = y := replaceAll_eq_self h2
  have e4 : replaceAll ("Answer :".toList) [] y = y := replaceAll_eq_self h3
  have e5 : replaceAll ("**".toList) [] y = y := replaceAll_eq_self h1
  have hfilter : (splitLines y).filter (fun line =>
      !((skip_patterns.any fun p => isSubstring p (stripL (toLowerL line))) &&
        decide ((stripL line).length < 150))) = splitLines y := by
    apply List.filter_eq_self.mpr
    intro l hl
    have hinf : stripL (toLowerL l) <:+: toLowerL y :=
      (stripL_isPart (toLowerL l)).trans ((splitLines_mem_isPart y l hl).map Char.toLower)
    have hmeta : (skip_patterns.any fun p => isSubstring p (stripL (toLowerL l))) = false := by
      rw [List.any_eq_false]
      intro p hp
      simp [isSubstring_false_of_isPart hinf (h4 p hp)]
    simp [hmeta]
  simp only [_clean_response]
  rw [e1, e2, e3, e4, e5, hfilter, joinWith_splitLines, h5, h6]

/-- C7 counterexample: cleaning "AnAnswer:swer:" once removes the inner
"Answer:" occurrence and thereby re-creates the marker, giving "Answer:";
cleaning a second time erases it, so the cleaner is not idempotent. -/
theorem clean_response_idempotence_counterexample :
    _clean_response (_clean_response ("AnAnswer:swer:".toList)) ≠
      _clean_response ("AnAnswer:swer:".toList) := by decide

/-- C7 (amended): the cleaner is idempotent on inputs whose cleaned form is
itself clean, that is, contains no "**", "Answer:" or "Answer :" occurrence
and no meta-commentary pattern, carries no surrounding whitespace and does
not end in a period or space; on general input idempotence fails. -/
theorem clean_response_idempotent_on_clean (x : List Char)
    (h1 : isSubstring ("**".toList) (_clean_response x) = false)
    (h2 : isSubstring ("Answer:".toList) (_clean_response x) = false)
    (h3 : isSubstring ("Answer :".toList) (_clean_response x) = false)
    (h4 : ∀ p ∈ skip_patterns, isSubstring p (toLowerL (_clean_response x)) = false)
    (h5 : stripL (_clean_response x) = _clean_response x)
    (h6 : rstripOn (". ".toList) (_clean_response x) = _clean_response x) :
    _clean_response (_clean_response x) = _clean_response x :=
  clean_response_fixed (_clean_response x) h1 h2 h3 h4 h5 h6

/-- C7 witness: "Hello world" cleans to itself, and cleaning twice agrees. -/
theorem clean_response_idempotent_on_clean_witness :
    _clean_response (_clean_response ("Hello world".toList)) =
      _clean_response ("Hello world".toList) :=
  clean_response_idempotent_on_clean ("Hello world".toList) (by decide) (by decide)
    (by decide) (by decide) (by decide) (by decide)

end DRBot
